import Mathlib

/-!
# Shallow embedding of `src/server/SignalingServer.ts`

This file embeds the signaling relay of the `webrtcp2p` repository
(class `SignalingServer`, file `src/server/SignalingServer.ts`) and proves
or refutes the frozen claims about it.

Modelling decisions, all taken from the source:

* The four registries (`#channels`, `#pendingOffers`, `#connections`,
  `#peerMap`) are JavaScript `Map`s with string keys.  We embed them as
  association lists (`SMap`) whose `get`/`set`/`delete` mirror `Map`
  semantics; every state produced by the operations keeps keys unique,
  `set` replaces in place and `delete` removes the (first) binding.
* A peer identity is the remote network address (`connection.address().address`),
  a string.  A connection handle is identified by the peer's key; an
  outbound `connection.write(...)` is recorded as a `(recipient, message)`
  pair in the operation's output instead of performing I/O.
* JavaScript truthiness of the payload fields: `!x` is true for a missing
  field (`undefined`) and for the empty string.  Payload fields are
  `Option String` and the guard is `truthy`.
* A JavaScript template literal coerces a non-primitive with
  `Object.prototype.toString`, yielding the literal text `[object Object]`.
  `relayOffer` (line 243) interpolates the `Channel` *object* (`${channel}`)
  into the pending-offer key, so `Channel.jsToString` is that constant.
* `throw new Error(msg)` becomes `RelayError.thrown msg` with the exact
  message string from the source; a runtime `TypeError` from dereferencing
  `undefined` becomes `RelayError.jsTypeError` naming the dereference site.
  An operation that throws after mutating the registries (JS mutates the
  `Map`s in place) returns the mutated state together with the error.
* `this.#emitter.emit(name, args)` (the private emitter created in the
  constructor) is recorded in `emitterEvents`; an emission on the server
  object itself via its inherited public `EventEmitter` interface would be
  recorded in `serverEvents` — the source contains no such emission, so
  every operation leaves `serverEvents` empty.
-/

namespace WebRTCP2P

/-- Association-list rendering of a JavaScript `Map` with string keys. -/
abbrev SMap (α : Type) : Type := List (String × α)

/-- `Map.prototype.get`: the value bound to `k`, if any. -/
def SMap.get {α : Type} : SMap α → String → Option α
  | [], _ => none
  | (k1, v1) :: t, k => if k1 = k then some v1 else SMap.get t k

/-- `Map.prototype.set`: replace the binding of `k` in place, or append it. -/
def SMap.set {α : Type} : SMap α → String → α → SMap α
  | [], k, v => [(k, v)]
  | (k1, v1) :: t, k, v =>
      if k1 = k then (k, v) :: t else (k1, v1) :: SMap.set t k v

/-- `Map.prototype.delete`: remove the binding of `k`. -/
def SMap.del {α : Type} : SMap α → String → SMap α
  | [], _ => []
  | (k1, v1) :: t, k => if k1 = k then t else (k1, v1) :: SMap.del t k

/-- JavaScript truthiness of an optional string field: `!x` holds for a
missing field and for the empty string. -/
def truthy : Option String → Bool
  | none => false
  | some s => s ≠ ""

/-- `interface Channel { id: string; peers: string[] }` (source lines 21-24). -/
structure Channel where
  id : String
  peers : List String
deriving DecidableEq, Repr

/-- `Object.prototype.toString` applied to a plain `Channel` object, as a
template literal does when it interpolates the object itself. -/
def Channel.jsToString (_ : Channel) : String := "[object Object]"

/-- `interface Peer { ip: String; connection: Socket }` (source lines 16-19).
The connection handle is identified by the peer's address. -/
structure Peer where
  ip : String
deriving DecidableEq, Repr

/-- The four private registries of `SignalingServer` (source lines 30-33). -/
structure ServerState where
  channels : SMap Channel
  pendingOffers : SMap String
  connections : SMap Bool
  peerMap : SMap Peer
deriving DecidableEq, Repr

/-- The state of a freshly constructed server (constructor lines 47-50). -/
def freshState : ServerState :=
  { channels := [], pendingOffers := [], connections := [], peerMap := [] }

/-- The payload of an inbound signaling message.  The source declares the
payload `any` and each handler reads the fields it needs, so we give one
record with every field optional; `none` is a missing field. -/
structure Payload where
  target : Option String := none
  channel : Option String := none
  offer : Option String := none
  answer : Option String := none
  candidate : Option String := none
deriving DecidableEq, Repr

/-- A failure inside an operation: either an explicit
`throw new Error(msg)` of the source, with its exact message, or a runtime
`TypeError` from dereferencing `undefined`, naming the dereference site. -/
inductive RelayError where
  | thrown (msg : String)
  | jsTypeError (site : String)
deriving DecidableEq, Repr

/-- A message written back out on some peer's connection. -/
inductive OutMsg where
  | offer (source : String) (sdp : Option String)
  | answer (source : String) (sdp : Option String)
  | candidate (cand : Option String)
deriving DecidableEq, Repr

/-- Result of running one protocol operation: the registries afterwards
(the source mutates its `Map`s in place, so mutations made before a throw
survive it), the outbound writes `(recipient, message)`, the events emitted
on the private `#emitter`, the events emitted on the server's public
inherited `EventEmitter` (none, in this source), and the error if the
operation threw. -/
structure OpResult where
  state : ServerState
  writes : List (String × OutMsg) := []
  emitterEvents : List (String × List String) := []
  serverEvents : List (String × List String) := []
  err : Option RelayError := none
deriving DecidableEq, Repr

/-- An operation that throws `e` with the registries in state `s`. -/
def errResult (s : ServerState) (e : RelayError) : OpResult :=
  { state := s, err := some e }

/-- The key `relayOffer` writes (source lines 242-247):
`` `pendingOffers/${channel}/${source}/${target}` `` — note `${channel}`
interpolates the `Channel` object, not `payload.channel`. -/
def offerWriteKey (ch : Channel) (offerer target : String) : String :=
  "pendingOffers/" ++ ch.jsToString ++ "/" ++ offerer ++ "/" ++ target

/-- The key `relayAnswer` looks up and deletes (source lines 153-157, 169-173):
`` `pendingOffers/${payload.channel}/${payload.target}/${source}` ``. -/
def answerLookupKey (channelId target sender : String) : String :=
  "pendingOffers/" ++ channelId ++ "/" ++ target ++ "/" ++ sender

/-- A Connection Ledger key (source lines 187-198):
`` `${channel}/${a}#${b}` ``. -/
def connKey (channelId a b : String) : String :=
  channelId ++ "/" ++ a ++ "#" ++ b

/-- `connectionHandler` lines 69-73: on a new connection the peer is put in
the Peer Registry keyed by its address. -/
def onConnect (s : ServerState) (addr : String) : ServerState :=
  { s with peerMap := s.peerMap.set addr { ip := addr } }

/-- `joinPool` (source lines 265-285).  A missing payload makes
`payload.channel` a dereference of `undefined` (TypeError).  If the channel
exists the source runs `channel.peers.push(addr)` — unconditionally, with
no membership check — mutating the channel object held in the map. -/
def joinPool (s : ServerState) (src : String) (pl : Option Payload) : OpResult :=
  match pl with
  | none => errResult s (.jsTypeError "payload.channel")
  | some p =>
    match p.channel with
    | none => errResult s (.thrown "channel property not set in payload")
    | some c =>
      if c = "" then errResult s (.thrown "channel property not set in payload")
      else
        match s.channels.get c with
        | none =>
            { state := { s with channels := s.channels.set c { id := c, peers := [src] } } }
        | some ch =>
            { state := { s with
                channels := s.channels.set c { id := ch.id, peers := ch.peers ++ [src] } } }

/-- `relayOffer` (source lines 215-259).  Validates `target`, `channel`,
`offer`; looks up the channel and finds the target among its peers (the
offerer's own membership is never checked); writes the pending-offer key —
with the channel *object* interpolated — and then dereferences
`peerMap.get(peer)` without a guard before writing the offer out. -/
def relayOffer (s : ServerState) (src : String) (pl : Option Payload) : OpResult :=
  match pl with
  | none => errResult s (.jsTypeError "payload.target")
  | some p =>
    match p.target with
    | none => errResult s (.thrown "target property not found on message payload")
    | some t =>
      if t = "" then errResult s (.thrown "target property not found on message payload")
      else
        match p.channel with
        | none => errResult s (.thrown "channel property not found on message payload")
        | some c =>
          if c = "" then errResult s (.thrown "channel property not found on message payload")
          else if ¬ truthy p.offer then
            errResult s (.thrown "offer property not found on message payload")
          else
            match s.channels.get c with
            | none => errResult s (.thrown "Channel doesn't exist")
            | some ch =>
              match ch.peers.find? (fun q => q == t) with
              | none => errResult s (.thrown "Peer not in channel!")
              | some peer =>
                let s1 := { s with
                  pendingOffers := s.pendingOffers.set (offerWriteKey ch src t) "pending" }
                match s1.peerMap.get peer with
                | none => errResult s1 (.jsTypeError "peerMap.get(peer).connection")
                | some pr =>
                    { state := s1, writes := [(pr.ip, .offer src p.offer)] }

/-- `relayAnswer` (source lines 134-205).  The three guards are lines
148-150 of the source; the third one re-tests `payload.channel` (under the
message "answer property not found on message payload"), so the `answer`
field is never actually validated — we embed the condition the code runs,
which is the channel test repeated and therefore never fires.  Then: look
up the pending offer under `answerLookupKey`, throw if absent; look up the
channel and find the target among its peers (the answering sender's own
membership is never checked); delete the pending offer; dereference
`peerMap.get(peer)` without a guard; write the answer out; insert the two
symmetric ledger entries; emit `p2pupgrade` on the private emitter. -/
def relayAnswer (s : ServerState) (src : String) (pl : Option Payload) : OpResult :=
  match pl with
  | none => errResult s (.jsTypeError "payload.target")
  | some p =>
    match p.target with
    | none => errResult s (.thrown "target property not found on message payload")
    | some t =>
      if t = "" then errResult s (.thrown "target property not found on message payload")
      else
        match p.channel with
        | none => errResult s (.thrown "channel property not found on message payload")
        | some c =>
          if c = "" then errResult s (.thrown "channel property not found on message payload")
          -- Source line 150: the guard meant for `answer` re-tests `payload.channel`,
          -- so at this point (channel already known truthy) it can never fire.
          else if c = "" then errResult s (.thrown "answer property not found on message payload")
          else
            match s.pendingOffers.get (answerLookupKey c t src) with
            | none => errResult s (.thrown "Offer doesn't exist for given target!")
            | some _ =>
              match s.channels.get c with
              | none => errResult s (.thrown "Channel doesn't exist")
              | some ch =>
                match ch.peers.find? (fun q => q == t) with
                | none => errResult s (.thrown "Peer not in channel!")
                | some peer =>
                  let s1 := { s with
                    pendingOffers := s.pendingOffers.del (answerLookupKey c t src) }
                  match s1.peerMap.get peer with
                  | none => errResult s1 (.jsTypeError "peerMap.get(peer).connection")
                  | some pr =>
                    let s2 := { s1 with
                      connections := (s1.connections.set (connKey c src t) true).set
                        (connKey c t src) true }
                    { state := s2
                      writes := [(pr.ip, .answer src p.answer)]
                      emitterEvents := [("p2pupgrade", [src, t])] }

/-- `passCandidate` (source lines 295-314).  No validation at all: the
source immediately runs `this.#peerMap.get(payload.target).connection.write`;
when the target has no registry entry (or `target` is missing, so the map
is queried with `undefined`), `get` yields `undefined` and the
`.connection` dereference raises a TypeError.  On success the candidate
contents are forwarded unmodified. -/
def passCandidate (s : ServerState) (_src : String) (pl : Option Payload) : OpResult :=
  match pl with
  | none => errResult s (.jsTypeError "payload.target")
  | some p =>
    match p.target with
    | none => errResult s (.jsTypeError "peerMap.get(target).connection")
    | some t =>
      match s.peerMap.get t with
      | none => errResult s (.jsTypeError "peerMap.get(target).connection")
      | some pr =>
          { state := s, writes := [(pr.ip, .candidate p.candidate)] }

/-- A raw inbound frame as the message listener sees it: either not
parseable as JSON, or parsed with its `type` and `payload` fields. -/
inductive RawMsg where
  | unparseable (raw : String)
  | parsed (ty : Option String) (pl : Option Payload)
deriving DecidableEq, Repr

/-- The `switch (data.type)` of the message listener (source lines 96-116):
route to exactly one operation; `keep-alive`, `kill` and unknown types are
no-ops. -/
def dispatchOp (s : ServerState) (src : String) (ty : Option String)
    (pl : Option Payload) : OpResult :=
  match ty with
  | none => { state := s }
  | some ty0 =>
      if ty0 = "join-pool" then joinPool s src pl
      else if ty0 = "offer" then relayOffer s src pl
      else if ty0 = "answer" then relayAnswer s src pl
      else if ty0 = "candidate" then passCandidate s src pl
      else { state := s }

/-- Outcome of the message listener for one inbound frame: the registries,
the outbound writes and emissions, whether `connection.end()` was called on
the originating connection, and whether an exception escaped the listener
(which, uncaught, brings down the process). -/
structure HandlerOutcome where
  state : ServerState
  writes : List (String × OutMsg) := []
  emitterEvents : List (String × List String) := []
  serverEvents : List (String × List String) := []
  endedConnection : Bool := false
  escapedException : Bool := false
deriving DecidableEq, Repr

/-- The per-message listener installed by `connectionHandler`
(source lines 76-123).

* Unparseable frame: `JSON.parse` throws, the catch block (lines 88-93)
  runs `connection.end()` and then evaluates `data.toString()` with `data`
  still `undefined` — a TypeError that the catch block does not catch and
  that escapes the listener.
* Parsed frame with falsy `type` or missing `payload`: the first try
  throws "Message incorrectly formatted", the catch ends the connection
  (here `data` is the parsed object, so logging succeeds), and control
  falls through to the second try, which still dispatches on `data.type`;
  any error a handler throws there is caught and logged (lines 117-122).
* Well-formed frame: dispatch; handler errors are caught and logged, the
  connection stays open. -/
def handleMessage (s : ServerState) (src : String) (raw : RawMsg) : HandlerOutcome :=
  match raw with
  | .unparseable _ =>
      { state := s, endedConnection := true, escapedException := true }
  | .parsed ty pl =>
      let malformed : Bool := ¬ truthy ty ∨ pl.isNone
      let r := dispatchOp s src ty pl
      { state := r.state
        writes := r.writes
        emitterEvents := r.emitterEvents
        serverEvents := r.serverEvents
        endedConnection := malformed
        escapedException := false }

/-! ## Lemmas about the `Map` embedding -/

/-- `set` binds `k` to `v`. -/
theorem SMap.get_set_self {α : Type} (m : SMap α) (k : String) (v : α) :
    (m.set k v).get k = some v := by
  induction m with
  | nil => simp [SMap.set, SMap.get]
  | cons hd tl ih =>
      obtain ⟨k1, v1⟩ := hd
      by_cases h : k1 = k
      · simp [SMap.set, SMap.get, h]
      · simp [SMap.set, SMap.get, h, ih]

/-- `set` leaves other keys alone. -/
theorem SMap.get_set_ne {α : Type} (m : SMap α) (k q : String) (v : α) (h : q ≠ k) :
    (m.set k v).get q = m.get q := by
  induction m with
  | nil => simp [SMap.set, SMap.get, Ne.symm h]
  | cons hd tl ih =>
      obtain ⟨k1, v1⟩ := hd
      by_cases h1 : k1 = k
      · subst h1
        simp [SMap.set, SMap.get, Ne.symm h]
      · simp [SMap.set, SMap.get, h1, ih]

/-- Inserting an absent key grows the map by one entry. -/
theorem SMap.length_set_of_get_none {α : Type} (m : SMap α) (k : String) (v : α)
    (h : m.get k = none) : (m.set k v).length = m.length + 1 := by
  induction m with
  | nil => simp [SMap.set]
  | cons hd tl ih =>
      obtain ⟨k1, v1⟩ := hd
      by_cases h1 : k1 = k
      · simp [SMap.get, h1] at h
      · simp [SMap.get, h1] at h
        simp [SMap.set, h1, ih h]

/-- Deleting a present key shrinks the map by one entry. -/
theorem SMap.length_del_of_get_some {α : Type} (m : SMap α) (k : String) (v : α)
    (h : m.get k = some v) : (m.del k).length + 1 = m.length := by
  induction m with
  | nil => simp [SMap.get] at h
  | cons hd tl ih =>
      obtain ⟨k1, v1⟩ := hd
      by_cases h1 : k1 = k
      · simp [SMap.del, h1]
      · simp [SMap.get, h1] at h
        simp [SMap.del, h1, ih h]

/-- `delete` leaves other keys alone. -/
theorem SMap.get_del_ne {α : Type} (m : SMap α) (k q : String) (h : q ≠ k) :
    (m.del k).get q = m.get q := by
  induction m with
  | nil => simp [SMap.del]
  | cons hd tl ih =>
      obtain ⟨k1, v1⟩ := hd
      by_cases h1 : k1 = k
      · subst h1
        simp [SMap.del, SMap.get, Ne.symm h]
      · simp [SMap.del, SMap.get, h1, ih]

/-- A key that is not among a map's keys resolves to nothing. -/
theorem SMap.get_eq_none_of_not_mem {α : Type} (m : SMap α) (k : String)
    (h : k ∉ m.map Prod.fst) : m.get k = none := by
  induction m with
  | nil => simp [SMap.get]
  | cons hd tl ih =>
      obtain ⟨k1, v1⟩ := hd
      have h1 : k ≠ k1 := fun he => h (by simp [he])
      have h2 : k ∉ tl.map Prod.fst := fun hm => h (by simp [hm])
      simp [SMap.get, Ne.symm h1, ih h2]

/-- On a map with unique keys (as every JavaScript `Map` has), a deleted
key is gone. -/
theorem SMap.get_del_self_of_nodup {α : Type} (m : SMap α) (k : String)
    (h : (m.map Prod.fst).Nodup) : (m.del k).get k = none := by
  induction m with
  | nil => simp [SMap.del, SMap.get]
  | cons hd tl ih =>
      obtain ⟨k1, v1⟩ := hd
      rw [List.map_cons] at h
      obtain ⟨hnotin, hnd⟩ := List.nodup_cons.mp h
      by_cases h1 : k1 = k
      · subst h1
        simpa [SMap.del] using SMap.get_eq_none_of_not_mem tl k1 hnotin
      · simp [SMap.del, SMap.get, h1, ih hnd]

/-- After inserting both symmetric keys with the same value, the first one
is present — also when the two keys coincide. -/
theorem SMap.get_set_set_left {α : Type} (m : SMap α) (k1 k2 : String) (v : α) :
    ((m.set k1 v).set k2 v).get k1 = some v := by
  by_cases h : k1 = k2
  · subst h
    exact SMap.get_set_self _ _ _
  · rw [SMap.get_set_ne _ _ _ _ h]
    exact SMap.get_set_self _ _ _

/-- A key of `m.set k v` is a key of `m`, or is `k`. -/
theorem SMap.mem_keys_set {α : Type} (m : SMap α) (k q : String) (v : α)
    (h : q ∈ (m.set k v).map Prod.fst) : q ∈ m.map Prod.fst ∨ q = k := by
  induction m with
  | nil =>
      rw [show SMap.set ([] : SMap α) k v = [(k, v)] from rfl, List.map_cons] at h
      rcases List.mem_cons.mp h with h | h
      · exact Or.inr h
      · exact absurd h (List.not_mem_nil q)
  | cons hd tl ih =>
      obtain ⟨k1, v1⟩ := hd
      by_cases he : k1 = k
      · subst he
        rw [show SMap.set ((k1, v1) :: tl) k1 v = (k1, v) :: tl from by
              simp [SMap.set], List.map_cons] at h
        rcases List.mem_cons.mp h with h | h
        · exact Or.inr h
        · exact Or.inl (by rw [List.map_cons]; exact List.mem_cons_of_mem _ h)
      · rw [show SMap.set ((k1, v1) :: tl) k v = (k1, v1) :: SMap.set tl k v from by
              simp [SMap.set, he], List.map_cons] at h
        rcases List.mem_cons.mp h with h | h
        · exact Or.inl (by rw [List.map_cons]; exact h ▸ List.mem_cons_self _ _)
        · rcases ih h with h2 | h2
          · exact Or.inl (by rw [List.map_cons]; exact List.mem_cons_of_mem _ h2)
          · exact Or.inr h2

/-- `set` preserves key-uniqueness (a JavaScript `Map` invariant). -/
theorem SMap.nodup_keys_set {α : Type} (m : SMap α) (k : String) (v : α)
    (h : (m.map Prod.fst).Nodup) : ((m.set k v).map Prod.fst).Nodup := by
  induction m with
  | nil =>
      rw [show SMap.set ([] : SMap α) k v = [(k, v)] from rfl]
      exact List.nodup_singleton k
  | cons hd tl ih =>
      obtain ⟨k1, v1⟩ := hd
      rw [List.map_cons] at h
      obtain ⟨h1, h2⟩ := List.nodup_cons.mp h
      by_cases he : k1 = k
      · subst he
        rw [show SMap.set ((k1, v1) :: tl) k1 v = (k1, v) :: tl from by
              simp [SMap.set], List.map_cons]
        exact List.nodup_cons.mpr ⟨h1, h2⟩
      · have h3 : k1 ∉ (SMap.set tl k v).map Prod.fst := fun hmem =>
          (SMap.mem_keys_set tl k k1 v hmem).elim (fun hx => h1 hx) (fun hx => he hx)
        rw [show SMap.set ((k1, v1) :: tl) k v = (k1, v1) :: SMap.set tl k v from by
              simp [SMap.set, he], List.map_cons]
        exact List.nodup_cons.mpr ⟨h3, ih h2⟩

/-- `delete` yields a sublist of the original entry list. -/
theorem SMap.del_sublist {α : Type} (m : SMap α) (k : String) :
    List.Sublist (m.del k) m := by
  induction m with
  | nil => simp [SMap.del]
  | cons hd tl ih =>
      obtain ⟨k1, v1⟩ := hd
      by_cases h : k1 = k
      · simp [SMap.del, h]
      · simpa [SMap.del, h] using ih.cons₂ (k1, v1)

/-- `delete` preserves key-uniqueness. -/
theorem SMap.nodup_keys_del {α : Type} (m : SMap α) (k : String)
    (h : (m.map Prod.fst).Nodup) : ((m.del k).map Prod.fst).Nodup :=
  h.sublist ((SMap.del_sublist m k).map Prod.fst)

/-! ## Key-uniqueness is an invariant of every reachable state

JavaScript `Map`s never hold two bindings of one key; the embedding keeps
that as a provable invariant: all four registries of every state reachable
from a fresh server have pairwise-distinct keys. -/

/-- All four registries have pairwise-distinct keys. -/
def nodupKeys (s : ServerState) : Prop :=
  (s.channels.map Prod.fst).Nodup ∧ (s.pendingOffers.map Prod.fst).Nodup
  ∧ (s.connections.map Prod.fst).Nodup ∧ (s.peerMap.map Prod.fst).Nodup

/-- States reachable from a fresh server through connection events and
inbound messages (the operations the dispatcher can invoke). -/
inductive Reachable : ServerState → Prop where
  | fresh : Reachable freshState
  | connect (s : ServerState) (addr : String) :
      Reachable s → Reachable (onConnect s addr)
  | join (s : ServerState) (src : String) (pl : Option Payload) :
      Reachable s → Reachable (joinPool s src pl).state
  | offer (s : ServerState) (src : String) (pl : Option Payload) :
      Reachable s → Reachable (relayOffer s src pl).state
  | answer (s : ServerState) (src : String) (pl : Option Payload) :
      Reachable s → Reachable (relayAnswer s src pl).state
  | candidate (s : ServerState) (src : String) (pl : Option Payload) :
      Reachable s → Reachable (passCandidate s src pl).state
  | message (s : ServerState) (src : String) (raw : RawMsg) :
      Reachable s → Reachable (handleMessage s src raw).state

/-- A new connection preserves key-uniqueness. -/
theorem nodupKeys_onConnect (s : ServerState) (addr : String)
    (h : nodupKeys s) : nodupKeys (onConnect s addr) :=
  ⟨h.1, h.2.1, h.2.2.1, SMap.nodup_keys_set _ _ _ h.2.2.2⟩

/-- `joinPool` preserves key-uniqueness. -/
theorem nodupKeys_joinPool (s : ServerState) (src : String) (pl : Option Payload)
    (h : nodupKeys s) : nodupKeys (joinPool s src pl).state := by
  obtain ⟨h1, h2, h3, h4⟩ := h
  unfold joinPool
  repeat' (first | split | dsimp only)
  all_goals first
    | exact ⟨h1, h2, h3, h4⟩
    | exact ⟨SMap.nodup_keys_set _ _ _ h1, h2, h3, h4⟩

/-- `relayOffer` preserves key-uniqueness. -/
theorem nodupKeys_relayOffer (s : ServerState) (src : String) (pl : Option Payload)
    (h : nodupKeys s) : nodupKeys (relayOffer s src pl).state := by
  obtain ⟨h1, h2, h3, h4⟩ := h
  unfold relayOffer
  repeat' (first | split | dsimp only)
  all_goals first
    | exact ⟨h1, h2, h3, h4⟩
    | exact ⟨h1, SMap.nodup_keys_set _ _ _ h2, h3, h4⟩

/-- `relayAnswer` preserves key-uniqueness. -/
theorem nodupKeys_relayAnswer (s : ServerState) (src : String) (pl : Option Payload)
    (h : nodupKeys s) : nodupKeys (relayAnswer s src pl).state := by
  obtain ⟨h1, h2, h3, h4⟩ := h
  unfold relayAnswer
  repeat' (first | split | dsimp only)
  all_goals first
    | exact ⟨h1, h2, h3, h4⟩
    | exact ⟨h1, SMap.nodup_keys_del _ _ h2, h3, h4⟩
    | exact ⟨h1, SMap.nodup_keys_del _ _ h2,
        SMap.nodup_keys_set _ _ _ (SMap.nodup_keys_set _ _ _ h3), h4⟩

/-- `passCandidate` preserves key-uniqueness (it never mutates state). -/
theorem nodupKeys_passCandidate (s : ServerState) (src : String) (pl : Option Payload)
    (h : nodupKeys s) : nodupKeys (passCandidate s src pl).state := by
  unfold passCandidate
  repeat' (first | split | dsimp only)
  all_goals exact h

/-- The message listener preserves key-uniqueness. -/
theorem nodupKeys_handleMessage (s : ServerState) (src : String) (raw : RawMsg)
    (h : nodupKeys s) : nodupKeys (handleMessage s src raw).state := by
  unfold handleMessage dispatchOp
  repeat' (first | split | dsimp only)
  all_goals first
    | exact h
    | exact nodupKeys_joinPool _ _ _ h
    | exact nodupKeys_relayOffer _ _ _ h
    | exact nodupKeys_relayAnswer _ _ _ h
    | exact nodupKeys_passCandidate _ _ _ h

/-- Every reachable state has unique keys in all four registries, so a
key-uniqueness hypothesis excludes no state the server can actually be
in. -/
theorem nodupKeys_reachable (s : ServerState) (h : Reachable s) : nodupKeys s := by
  induction h with
  | fresh => exact ⟨List.nodup_nil, List.nodup_nil, List.nodup_nil, List.nodup_nil⟩
  | connect s addr _ ih => exact nodupKeys_onConnect s addr ih
  | join s src pl _ ih => exact nodupKeys_joinPool s src pl ih
  | offer s src pl _ ih => exact nodupKeys_relayOffer s src pl ih
  | answer s src pl _ ih => exact nodupKeys_relayAnswer s src pl ih
  | candidate s src pl _ ih => exact nodupKeys_passCandidate s src pl ih
  | message s src raw _ ih => exact nodupKeys_handleMessage s src raw ih

/-! ## Concrete states used by the claim theorems -/

/-- Peers `A` and `B` connected and both joined in channel `room1`: the
starting point of the spec's end-to-end scenario, built by running the
operations from a fresh server. -/
def roomState : ServerState :=
  (joinPool
    (joinPool (onConnect (onConnect freshState "A") "B") "A"
      (some { channel := some "room1" })).state
    "B" (some { channel := some "room1" })).state

/-- A state holding a pending offer from `A` to `B` in `room1` under the
key the *answer* relay looks up, so that an answer can run to completion. -/
def pendingState : ServerState :=
  { channels := [("room1", { id := "room1", peers := ["A", "B"] })]
    pendingOffers := [("pendingOffers/room1/A/B", "pending")]
    connections := []
    peerMap := [("A", { ip := "A" }), ("B", { ip := "B" })] }

/-- `A` and `B` connected, but only `B` joined channel `c`. -/
def partialJoinState : ServerState :=
  (joinPool (onConnect (onConnect freshState "A") "B") "B"
    (some { channel := some "c" })).state

/-- Peer `T` connected, joined in the channel literally named
`[object Object]`, and with its self-offer relayed: because the channel id
equals the text a template literal produces for the channel object, the
broken write key coincides with the answer lookup key and the answer can
actually succeed — all built by running the operations from a fresh
server. -/
def oooState : ServerState :=
  (relayOffer
    (joinPool (onConnect freshState "T") "T"
      (some { channel := some "[object Object]" })).state
    "T" (some { target := some "T", channel := some "[object Object]",
                offer := some "o" })).state

/-- The scenario's offer: `A` offers to `B` in `room1`. -/
def offerRun : OpResult :=
  relayOffer roomState "A"
    (some { target := some "B", channel := some "room1", offer := some "o" })

/-- The scenario's answer: `B` answers `A` in `room1`, after the offer. -/
def answerRun : OpResult :=
  relayAnswer offerRun.state "B"
    (some { target := some "A", channel := some "room1", answer := some "a" })

/-! ## The claims -/

/-- C1: in the end-to-end scenario (A and B join `room1`, A's offer to B is
relayed and B's connection receives `{type: offer, payload: {source: A, offer}}`),
B's answer does **not** succeed: the offer relay wrote the pending key with
the channel *object* interpolated (`pendingOffers/[object Object]/A/B`)
while the answer relay looks up `pendingOffers/room1/A/B`, so the two keys
differ, the answer throws "Offer doesn't exist for given target!", and the
Connection Ledger stays empty — refuting the claimed success of the
handshake. -/
theorem offer_answer_key_mismatch :
    offerRun.err = none
    ∧ offerRun.writes = [("B", .offer "A" (some "o"))]
    ∧ offerRun.state.pendingOffers
        = [("pendingOffers/[object Object]/A/B", "pending")]
    ∧ answerLookupKey "room1" "A" "B" = "pendingOffers/room1/A/B"
    ∧ offerWriteKey { id := "room1", peers := ["A", "B"] } "A" "B"
        ≠ answerLookupKey "room1" "A" "B"
    ∧ answerRun.err = some (.thrown "Offer doesn't exist for given target!")
    ∧ answerRun.writes = []
    ∧ answerRun.state.connections = [] := by decide

/-- C2: a frame that is not parseable JSON makes the message listener end
the originating connection but then evaluate `data.toString()` with `data`
still `undefined` (source line 91), so a TypeError escapes the listener —
it does not return normally, refuting the never-crashes claim.  The
registries are untouched, and a *parseable* frame that merely lacks `type`
is handled without any escaping exception, so the crash is specific to the
unparseable path. -/
theorem malformed_frame_escapes_handler :
    (handleMessage roomState "A" (.unparseable "this is not json")).escapedException
      = true
    ∧ (handleMessage roomState "A" (.unparseable "this is not json")).endedConnection
      = true
    ∧ (handleMessage roomState "A" (.unparseable "this is not json")).state
      = roomState
    ∧ (handleMessage roomState "A" (.unparseable "this is not json")).writes = []
    ∧ (handleMessage roomState "A" (.parsed none (some {}))).escapedException
      = false
    ∧ (handleMessage roomState "A" (.parsed none (some {}))).endedConnection
      = true
    ∧ (handleMessage roomState "A" (.parsed none (some {}))).state
      = roomState := by decide

/-- C3: `joinPool` appends the sender unconditionally (source line 283), so
joining the same channel twice from the same peer yields **two** membership
entries, refuting idempotence. -/
theorem joinPool_duplicates_membership :
    (joinPool (onConnect freshState "A") "A"
      (some { channel := some "room1" })).state.channels.get "room1"
      = some { id := "room1", peers := ["A"] }
    ∧ (joinPool
        (joinPool (onConnect freshState "A") "A"
          (some { channel := some "room1" })).state
        "A" (some { channel := some "room1" })).state.channels.get "room1"
      = some { id := "room1", peers := ["A", "A"] } := by decide

/-- C5: an answer payload carrying `target` and `channel` but **no**
`answer` field sails through validation (the third guard at source line 150
re-tests `payload.channel`) and the relay even completes, forwarding
`answer: undefined` to the target — refuting the claim that a missing
`answer` fails with a ValidationError before any outbound write. -/
theorem missing_answer_field_passes_validation :
    (relayAnswer pendingState "B"
      (some { target := some "A", channel := some "room1" })).err = none
    ∧ (relayAnswer pendingState "B"
        (some { target := some "A", channel := some "room1" })).writes
      = [("A", .answer "B" none)]
    ∧ (relayAnswer pendingState "B"
        (some { target := some "A",
                channel := some "room1" })).state.connections.length = 2 := by decide

/-- C9: a successful answer relay emits its event under the name
`p2pupgrade` — not `p2p-upgrade` — and on the private `#emitter` created in
the constructor, never on the server's public inherited `EventEmitter`
interface, so a subscriber registered through the public API for
`p2p-upgrade` observes nothing. -/
theorem p2pupgrade_event_misdirected :
    (relayAnswer pendingState "B"
      (some { target := some "A", channel := some "room1",
              answer := some "a" })).err = none
    ∧ (relayAnswer pendingState "B"
        (some { target := some "A", channel := some "room1",
                answer := some "a" })).emitterEvents
      = [("p2pupgrade", ["B", "A"])]
    ∧ (relayAnswer pendingState "B"
        (some { target := some "A", channel := some "room1",
                answer := some "a" })).serverEvents = []
    ∧ "p2pupgrade" ≠ "p2p-upgrade" := by decide

/-- C10: a candidate addressed to a registered peer is relayed verbatim,
but a candidate addressed to a peer with no registry entry makes
`passCandidate` dereference `peerMap.get(target).connection` with `get`
returning `undefined` — an unguarded TypeError, not a distinguishable
NotFound error. -/
theorem passCandidate_unregistered_target_crashes :
    (passCandidate pendingState "B"
      (some { target := some "X", candidate := some "cand" })).err
      = some (.jsTypeError "peerMap.get(target).connection")
    ∧ (passCandidate pendingState "B"
        (some { target := some "X", candidate := some "cand" })).writes = []
    ∧ (passCandidate pendingState "B"
        (some { target := some "X", candidate := some "cand" })).state
      = pendingState
    ∧ (passCandidate pendingState "B"
        (some { target := some "A", candidate := some "cand" })).err = none
    ∧ (passCandidate pendingState "B"
        (some { target := some "A", candidate := some "cand" })).writes
      = [("A", .candidate (some "cand"))]
    ∧ (passCandidate pendingState "B"
        (some { target := some "A", candidate := some "cand" })).state
      = pendingState := by decide

/-- C4 counterexample: from a fresh server, `B` joins channel `c` while `A`
never joins; `A`'s offer to `B` nevertheless succeeds and records a
PendingOffer whose offerer `A` is not a member of the stated channel,
refuting the claimed membership invariant. -/
theorem pendingOffer_offerer_not_member :
    partialJoinState.channels.get "c" = some { id := "c", peers := ["B"] }
    ∧ ¬ ("A" ∈ (["B"] : List String))
    ∧ (relayOffer partialJoinState "A"
        (some { target := some "B", channel := some "c",
                offer := some "o" })).err = none
    ∧ (relayOffer partialJoinState "A"
        (some { target := some "B", channel := some "c",
                offer := some "o" })).state.pendingOffers.get
        (offerWriteKey { id := "c", peers := ["B"] } "A" "B")
      = some "pending" := by decide

/-- C4 (amended): whenever the offer relay or the answer relay succeeds,
the *target* named in the message is a member of the stated channel at that
moment; the offering peer (respectively the answering sender) is never
checked and need not be a member. -/
theorem relay_success_target_member :
    (∀ s src p, (relayOffer s src (some p)).err = none →
      ∃ c ch t, p.channel = some c ∧ s.channels.get c = some ch
        ∧ p.target = some t ∧ t ∈ ch.peers)
    ∧ (∀ s src p, (relayAnswer s src (some p)).err = none →
      ∃ c ch t, p.channel = some c ∧ s.channels.get c = some ch
        ∧ p.target = some t ∧ t ∈ ch.peers) := by
  constructor
  · intro s src p h
    rcases hpt : p.target with _ | t
    · simp [relayOffer, hpt, errResult] at h
    by_cases ht0 : t = ""
    · simp [relayOffer, hpt, ht0, errResult] at h
    rcases hpc : p.channel with _ | c
    · simp [relayOffer, hpt, hpc, ht0, errResult] at h
    by_cases hc0 : c = ""
    · simp [relayOffer, hpt, hpc, ht0, hc0, errResult] at h
    by_cases ho : truthy p.offer
    case neg => simp [relayOffer, hpt, hpc, ht0, hc0, ho, errResult] at h
    rcases hch : s.channels.get c with _ | ch
    · simp [relayOffer, hpt, hpc, ht0, hc0, ho, hch, errResult] at h
    rcases hf : ch.peers.find? (fun q => q == t) with _ | peer
    · simp [relayOffer, hpt, hpc, ht0, hc0, ho, hch, hf, errResult] at h
    refine ⟨c, ch, t, rfl, hch, rfl, ?_⟩
    have hmem := List.mem_of_find?_eq_some hf
    have hbeq := List.find?_some hf
    simp only [beq_iff_eq] at hbeq
    exact hbeq ▸ hmem
  · intro s src p h
    rcases hpt : p.target with _ | t
    · simp [relayAnswer, hpt, errResult] at h
    by_cases ht0 : t = ""
    · simp [relayAnswer, hpt, ht0, errResult] at h
    rcases hpc : p.channel with _ | c
    · simp [relayAnswer, hpt, hpc, ht0, errResult] at h
    by_cases hc0 : c = ""
    · simp [relayAnswer, hpt, hpc, ht0, hc0, errResult] at h
    rcases hpo : s.pendingOffers.get (answerLookupKey c t src) with _ | off
    · simp [relayAnswer, hpt, hpc, ht0, hc0, hpo, errResult] at h
    rcases hch : s.channels.get c with _ | ch
    · simp [relayAnswer, hpt, hpc, ht0, hc0, hpo, hch, errResult] at h
    rcases hf : ch.peers.find? (fun q => q == t) with _ | peer
    · simp [relayAnswer, hpt, hpc, ht0, hc0, hpo, hch, hf, errResult] at h
    refine ⟨c, ch, t, rfl, hch, rfl, ?_⟩
    have hmem := List.mem_of_find?_eq_some hf
    have hbeq := List.find?_some hf
    simp only [beq_iff_eq] at hbeq
    exact hbeq ▸ hmem

/-- C4 witness: the amended theorem applied to the successful offer of the
counterexample state — its target `B` is indeed a member of channel `c`. -/
theorem relay_success_target_member_witness :
    (relayOffer partialJoinState "A"
      (some { target := some "B", channel := some "c", offer := some "o" })).err = none
    ∧ ∃ c ch t,
        (Payload.mk (some "B") (some "c") (some "o") none none).channel = some c
        ∧ partialJoinState.channels.get c = some ch
        ∧ (Payload.mk (some "B") (some "c") (some "o") none none).target = some t
        ∧ t ∈ ch.peers :=
  ⟨by decide,
   relay_success_target_member.1 partialJoinState "A"
     (Payload.mk (some "B") (some "c") (some "o") none none) (by decide)⟩

/-- C6: an answer naming a (channel, target, sender) triple with no pending
offer under the looked-up key throws "Offer doesn't exist for given
target!" before any mutation: the whole state — Connection Ledger
included — and the outputs are exactly those of a no-op. -/
theorem answer_without_pending_offer_fails_atomically
    (s : ServerState) (src : String) (p : Payload) (t c : String)
    (ht : p.target = some t) (ht0 : t ≠ "")
    (hc : p.channel = some c) (hc0 : c ≠ "")
    (hnone : s.pendingOffers.get (answerLookupKey c t src) = none) :
    (relayAnswer s src (some p)).err
      = some (.thrown "Offer doesn't exist for given target!")
    ∧ (relayAnswer s src (some p)).state = s
    ∧ (relayAnswer s src (some p)).writes = []
    ∧ (relayAnswer s src (some p)).emitterEvents = [] := by
  have he : relayAnswer s src (some p)
      = errResult s (.thrown "Offer doesn't exist for given target!") := by
    simp [relayAnswer, ht, hc, ht0, hc0, hnone]
  rw [he]
  exact ⟨rfl, rfl, rfl, rfl⟩

/-- C6 witness: in the end-to-end scenario state (no pending offers yet),
B's unsolicited answer to A fails with the missing-offer error and leaves
the state untouched. -/
theorem answer_without_pending_offer_fails_atomically_witness :
    (relayAnswer roomState "B"
      (some { target := some "A", channel := some "room1", answer := some "a" })).err
      = some (.thrown "Offer doesn't exist for given target!")
    ∧ (relayAnswer roomState "B"
        (some { target := some "A", channel := some "room1", answer := some "a" })).state
      = roomState :=
  let h := answer_without_pending_offer_fails_atomically roomState "B"
    { target := some "A", channel := some "room1", answer := some "a" }
    "A" "room1" rfl (by decide) rfl (by decide) (by decide)
  ⟨h.1, h.2.1⟩

/-- C7 counterexample: two successful answer relays that do not add exactly
two new ledger entries.  First, from a fresh server, `T` joins the channel
literally named `[object Object]` and self-offers, so the broken write key
matches the answer lookup key; the answer succeeds but the two "symmetric"
keys coincide, adding exactly **one** new ConnectionRecord.  Second, a
successful answer for a pair whose symmetric entries already exist in the
ledger adds **zero** new entries. -/
theorem answer_success_without_two_new_records :
    (relayAnswer oooState "T"
      (some { target := some "T", channel := some "[object Object]",
              answer := some "a" })).err = none
    ∧ oooState.connections.length = 0
    ∧ (relayAnswer oooState "T"
        (some { target := some "T", channel := some "[object Object]",
                answer := some "a" })).state.connections.length = 1
    ∧ (relayAnswer
        { pendingState with
          connections := [("room1/B#A", true), ("room1/A#B", true)] }
        "B" (some { target := some "A", channel := some "room1",
                    answer := some "a" })).err = none
    ∧ (relayAnswer
        { pendingState with
          connections := [("room1/B#A", true), ("room1/A#B", true)] }
        "B" (some { target := some "A", channel := some "room1",
                    answer := some "a" })).state.connections.length = 2 := by decide

/-- C7 (amended): **every** successful answer relay deletes exactly the
matching PendingOffer (one fewer entry; under key-uniqueness — which
`nodupKeys_reachable` proves for every reachable state — the deleted key
afterwards resolves to nothing; every other key untouched), makes **both**
symmetric ledger keys present (also when they coincide, as in a
self-handshake), leaves every other ledger key and the Channel and Peer
registries untouched; and when the two symmetric keys are distinct (in
particular sender ≠ target) and neither was already in the ledger, the
ledger grows by exactly two entries. -/
theorem answer_success_ledger_update :
    (∀ s src p, (relayAnswer s src (some p)).err = none →
      ∃ t c off,
        p.target = some t ∧ p.channel = some c
        ∧ s.pendingOffers.get (answerLookupKey c t src) = some off
        ∧ (relayAnswer s src (some p)).state.pendingOffers
            = s.pendingOffers.del (answerLookupKey c t src)
        ∧ (relayAnswer s src (some p)).state.pendingOffers.length + 1
            = s.pendingOffers.length
        ∧ ((s.pendingOffers.map Prod.fst).Nodup →
            (relayAnswer s src (some p)).state.pendingOffers.get
              (answerLookupKey c t src) = none)
        ∧ (∀ q, q ≠ answerLookupKey c t src →
            (relayAnswer s src (some p)).state.pendingOffers.get q
              = s.pendingOffers.get q)
        ∧ (relayAnswer s src (some p)).state.connections
            = (s.connections.set (connKey c src t) true).set (connKey c t src) true
        ∧ (relayAnswer s src (some p)).state.connections.get (connKey c src t)
            = some true
        ∧ (relayAnswer s src (some p)).state.connections.get (connKey c t src)
            = some true
        ∧ (∀ q, q ≠ connKey c src t → q ≠ connKey c t src →
            (relayAnswer s src (some p)).state.connections.get q
              = s.connections.get q)
        ∧ (relayAnswer s src (some p)).state.channels = s.channels
        ∧ (relayAnswer s src (some p)).state.peerMap = s.peerMap)
    ∧ (∀ s src p t c, p.target = some t → p.channel = some c →
        (relayAnswer s src (some p)).err = none →
        connKey c src t ≠ connKey c t src →
        s.connections.get (connKey c src t) = none →
        s.connections.get (connKey c t src) = none →
        (relayAnswer s src (some p)).state.connections.length
          = s.connections.length + 2) := by
  have hA : ∀ s src p, (relayAnswer s src (some p)).err = none →
      ∃ t c off,
        p.target = some t ∧ p.channel = some c
        ∧ s.pendingOffers.get (answerLookupKey c t src) = some off
        ∧ (relayAnswer s src (some p)).state.pendingOffers
            = s.pendingOffers.del (answerLookupKey c t src)
        ∧ (relayAnswer s src (some p)).state.pendingOffers.length + 1
            = s.pendingOffers.length
        ∧ ((s.pendingOffers.map Prod.fst).Nodup →
            (relayAnswer s src (some p)).state.pendingOffers.get
              (answerLookupKey c t src) = none)
        ∧ (∀ q, q ≠ answerLookupKey c t src →
            (relayAnswer s src (some p)).state.pendingOffers.get q
              = s.pendingOffers.get q)
        ∧ (relayAnswer s src (some p)).state.connections
            = (s.connections.set (connKey c src t) true).set (connKey c t src) true
        ∧ (relayAnswer s src (some p)).state.connections.get (connKey c src t)
            = some true
        ∧ (relayAnswer s src (some p)).state.connections.get (connKey c t src)
            = some true
        ∧ (∀ q, q ≠ connKey c src t → q ≠ connKey c t src →
            (relayAnswer s src (some p)).state.connections.get q
              = s.connections.get q)
        ∧ (relayAnswer s src (some p)).state.channels = s.channels
        ∧ (relayAnswer s src (some p)).state.peerMap = s.peerMap := by
    intro s src p h
    rcases hpt : p.target with _ | t
    · simp [relayAnswer, hpt, errResult] at h
    by_cases ht0 : t = ""
    · simp [relayAnswer, hpt, ht0, errResult] at h
    rcases hpc : p.channel with _ | c
    · simp [relayAnswer, hpt, hpc, ht0, errResult] at h
    by_cases hc0 : c = ""
    · simp [relayAnswer, hpt, hpc, ht0, hc0, errResult] at h
    rcases hpo : s.pendingOffers.get (answerLookupKey c t src) with _ | off
    · simp [relayAnswer, hpt, hpc, ht0, hc0, hpo, errResult] at h
    rcases hch : s.channels.get c with _ | ch
    · simp [relayAnswer, hpt, hpc, ht0, hc0, hpo, hch, errResult] at h
    rcases hf : ch.peers.find? (fun q => q == t) with _ | peer
    · simp [relayAnswer, hpt, hpc, ht0, hc0, hpo, hch, hf, errResult] at h
    rcases hpm : s.peerMap.get peer with _ | pr
    · simp [relayAnswer, hpt, hpc, ht0, hc0, hpo, hch, hf, hpm, errResult] at h
    have he : relayAnswer s src (some p)
        = { state := { s with
              pendingOffers := s.pendingOffers.del (answerLookupKey c t src)
              connections := (s.connections.set (connKey c src t) true).set
                (connKey c t src) true }
            writes := [(pr.ip, .answer src p.answer)]
            emitterEvents := [("p2pupgrade", [src, t])] } := by
      simp [relayAnswer, hpt, hpc, ht0, hc0, hpo, hch, hf, hpm]
    rw [he]
    refine ⟨t, c, off, rfl, rfl, hpo, rfl, ?_, ?_, ?_, rfl, ?_, ?_, ?_, rfl, rfl⟩
    · exact SMap.length_del_of_get_some _ _ off hpo
    · intro hnd
      exact SMap.get_del_self_of_nodup _ _ hnd
    · intro q hq
      exact SMap.get_del_ne _ _ q hq
    · exact SMap.get_set_set_left _ _ _ _
    · exact SMap.get_set_self _ _ _
    · intro q hq1 hq2
      rw [SMap.get_set_ne _ _ _ _ hq2, SMap.get_set_ne _ _ _ _ hq1]
  refine ⟨hA, ?_⟩
  intro s src p t c hpt hpc h hkne hf1 hf2
  obtain ⟨t2, c2, off, e1, e2, e3, e4, e5, e6, e7, e8, e9, e10, e11, e12, e13⟩ :=
    hA s src p h
  rw [hpt] at e1
  rw [hpc] at e2
  injection e1 with e1
  injection e2 with e2
  subst e1
  subst e2
  rw [e8]
  have hmid : (s.connections.set (connKey c src t) true).get (connKey c t src)
      = none := by
    rw [SMap.get_set_ne _ _ _ _ (Ne.symm hkne)]
    exact hf2
  rw [SMap.length_set_of_get_none _ _ _ hmid,
    SMap.length_set_of_get_none _ _ _ hf1]

/-- C7 witness: both parts of the amended theorem applied to the
pending-offer state: the successful answer from `B` to `A` satisfies the
unconditional part (pending offer consumed), and — the two symmetric keys
being distinct and fresh — the ledger grows by exactly two entries. -/
theorem answer_success_ledger_update_witness :
    (relayAnswer pendingState "B"
      (some { target := some "A", channel := some "room1",
              answer := some "a" })).err = none
    ∧ (∃ t c off,
        (Payload.mk (some "A") (some "room1") none (some "a") none).target = some t
        ∧ (Payload.mk (some "A") (some "room1") none (some "a") none).channel
          = some c
        ∧ pendingState.pendingOffers.get (answerLookupKey c t "B") = some off
        ∧ (relayAnswer pendingState "B"
            (some (Payload.mk (some "A") (some "room1") none (some "a")
              none))).state.pendingOffers.length + 1
          = pendingState.pendingOffers.length)
    ∧ (relayAnswer pendingState "B"
        (some { target := some "A", channel := some "room1",
                answer := some "a" })).state.connections.length
      = pendingState.connections.length + 2 := by
  refine ⟨by decide, ?_, ?_⟩
  · obtain ⟨t, c, off, e1, e2, e3, e4, e5, e6, e7, e8, e9, e10, e11, e12, e13⟩ :=
      answer_success_ledger_update.1 pendingState "B"
        (Payload.mk (some "A") (some "room1") none (some "a") none) (by decide)
    exact ⟨t, c, off, e1, e2, e3, e5⟩
  · exact answer_success_ledger_update.2 pendingState "B"
      (Payload.mk (some "A") (some "room1") none (some "a") none) "A" "room1"
      rfl rfl (by decide) (by decide) (by decide) (by decide)

/-- C8: an offer whose stated channel does not exist, or whose target is
not among the stated channel's members, leaves the whole state unchanged
(in particular no PendingOffer is recorded), performs no outbound write,
and throws the channel-missing or peer-not-in-channel error. -/
theorem offer_target_absent_no_effect
    (s : ServerState) (src : String) (p : Payload) (t c : String)
    (ht : p.target = some t) (ht0 : t ≠ "")
    (hc : p.channel = some c) (hc0 : c ≠ "")
    (ho : truthy p.offer = true)
    (habs : s.channels.get c = none
      ∨ ∃ ch, s.channels.get c = some ch ∧ t ∉ ch.peers) :
    (relayOffer s src (some p)).state = s
    ∧ (relayOffer s src (some p)).writes = []
    ∧ ((relayOffer s src (some p)).err = some (.thrown "Channel doesn't exist")
       ∨ (relayOffer s src (some p)).err = some (.thrown "Peer not in channel!")) := by
  rcases habs with hch | ⟨ch, hch, hmem⟩
  · have he : relayOffer s src (some p)
        = errResult s (.thrown "Channel doesn't exist") := by
      simp [relayOffer, ht, hc, ht0, hc0, ho, hch]
    rw [he]
    exact ⟨rfl, rfl, Or.inl rfl⟩
  · have hfn : ch.peers.find? (fun q => q == t) = none := by
      rw [List.find?_eq_none]
      intro x hx
      simp only [beq_iff_eq]
      intro hxe
      exact hmem (hxe ▸ hx)
    have he : relayOffer s src (some p)
        = errResult s (.thrown "Peer not in channel!") := by
      simp [relayOffer, ht, hc, ht0, hc0, ho, hch, hfn]
    rw [he]
    exact ⟨rfl, rfl, Or.inr rfl⟩

/-- C8 witness: in the pending-offer state, an offer addressed to the
unregistered, non-member peer `X` in `room1` changes nothing, writes
nothing, and fails with one of the two errors. -/
theorem offer_target_absent_no_effect_witness :
    (relayOffer pendingState "A"
      (some { target := some "X", channel := some "room1",
              offer := some "o" })).state = pendingState
    ∧ (relayOffer pendingState "A"
        (some { target := some "X", channel := some "room1",
                offer := some "o" })).writes = []
    ∧ ((relayOffer pendingState "A"
          (some { target := some "X", channel := some "room1",
                  offer := some "o" })).err
        = some (.thrown "Channel doesn't exist")
       ∨ (relayOffer pendingState "A"
          (some { target := some "X", channel := some "room1",
                  offer := some "o" })).err
        = some (.thrown "Peer not in channel!")) :=
  offer_target_absent_no_effect pendingState "A"
    { target := some "X", channel := some "room1", offer := some "o" }
    "X" "room1" rfl (by decide) rfl (by decide) (by decide)
    (Or.inr ⟨{ id := "room1", peers := ["A", "B"] }, by decide, by decide⟩)

end WebRTCP2P
